import Mathlib

/-!
Verification of the transcription pipeline in `src/vtt.py`.

The Python source is shallowly embedded below: pure helpers (output-path
derivation) become Lean functions on `List Char` / `String`; the stateful
pipeline becomes a function from an abstract environment (what the external
collaborators do) and an abstract filesystem state to a final state plus a
chronological list of observable events; the spinner's thread interplay
becomes a small-step interleaving relation; the stderr suppressor becomes a
function on a file-descriptor table.  Exceptions in the Python source are
embedded as `Except` / `Option` error values.
-/

set_option autoImplicit false

namespace VTT

/-! ### Module-level constants (src/vtt.py lines 12-19) -/

/-- Model name constant, src/vtt.py line 12. -/
def MODEL_NAME : String := "gemini-pro-latest"

/-- Temporary audio file name, src/vtt.py line 13. -/
def TEMP_AUDIO_FILENAME : String := "temp_audio_for_transcription.mp3"

/-- Audio codec constant, src/vtt.py line 14. -/
def AUDIO_CODEC : String := "mp3"

/-- MIME type constant, src/vtt.py line 15. -/
def AUDIO_MIME_TYPE : String := "audio/mp3"

/-- Output file suffix, src/vtt.py line 16. -/
def TRANSCRIPTION_FILE_SUFFIX : String := "_gemini_transcription.txt"

/-- Credential environment variable name, src/vtt.py line 17. -/
def API_KEY_ENV_VAR : String := "GOOGLE_API_KEY"

/-- Fixed output directory, src/vtt.py line 19. -/
def OUTPUT_DIR : String := "output"

/-! ### Embedding of the CPython `posixpath` helpers used by the source

`os.path.basename`, `os.path.splitext` and `os.path.join` (POSIX flavor,
two-argument join) are embedded on `List Char`, following the CPython
implementations: `basename(p) = p[p.rfind(sep)+1:]`, `splitext` splits at the
last dot of the last component unless every character before that dot (within
the component) is itself a dot, and `join(a, b)` inserts a separator unless
`b` is absolute or `a` is empty or ends with the separator. -/

/-- Index of the last occurrence of `c` in `l` (CPython `str.rfind`, with
`none` standing for the sentinel `-1`). -/
def rfindN (c : Char) : List Char → Option Nat
  | [] => none
  | a :: as =>
    match rfindN c as with
    | some j => some (j + 1)
    | none => if a = c then some 0 else none

/-- While-loop of CPython `posixpath.splitext`: scan positions
`filenameIndex, filenameIndex+1, ...` strictly below `dotIndex`; on the first
position holding a non-dot character, split at `dotIndex`; if every scanned
character is a dot, return the whole input with an empty extension.  `fuel`
is `dotIndex - filenameIndex`, so the recursion is structural. -/
def splitextLoop (p : List Char) (dotIndex : Nat) : Nat → Nat → List Char × List Char
  | 0, _ => (p, [])
  | fuel + 1, filenameIndex =>
    if p.getD filenameIndex ' ' ≠ '.' then (p.take dotIndex, p.drop dotIndex)
    else splitextLoop p dotIndex fuel (filenameIndex + 1)

/-- CPython `posixpath.splitext` on a character list.  The scan starts at
`sepIndex + 1` (position `0` when there is no separator); the Python guard
`dotIndex > sepIndex` is `filenameIndex ≤ dotIndex` in those terms. -/
def splitextL (l : List Char) : List Char × List Char :=
  match rfindN '.' l with
  | none => (l, [])
  | some dotIndex =>
    match rfindN '/' l with
    | none => splitextLoop l dotIndex dotIndex 0
    | some s =>
      if s + 1 ≤ dotIndex then
        splitextLoop l dotIndex (dotIndex - (s + 1)) (s + 1)
      else (l, [])

/-- CPython `posixpath.basename` on a character list: everything after the
last `/` (the whole input when there is no `/`). -/
def basenameL (l : List Char) : List Char :=
  match rfindN '/' l with
  | none => l
  | some i => l.drop (i + 1)

/-- Two-argument CPython `posixpath.join` on character lists. -/
def joinPathL (a b : List Char) : List Char :=
  if b.head? = some '/' then b
  else if a = [] ∨ a.getLast? = some '/' then a ++ b
  else a ++ '/' :: b

/-- String-level `os.path.basename`. -/
def basename (p : String) : String := String.mk (basenameL p.data)

/-- String-level `os.path.splitext`. -/
def splitext (p : String) : String × String :=
  (String.mk (splitextL p.data).1, String.mk (splitextL p.data).2)

/-- String-level two-argument `os.path.join`. -/
def joinPath (a b : String) : String := String.mk (joinPathL a.data b.data)

/-- Embedding of `_generate_output_filename` (src/vtt.py lines 181-184):
`os.path.join(OUTPUT_DIR, splitext(basename(path))[0] + SUFFIX)`. -/
def generate_output_filename (video_file_path : String) : String :=
  let video_filename_without_extension := (splitext (basename video_file_path)).1
  let output_filename := video_filename_without_extension ++ TRANSCRIPTION_FILE_SUFFIX
  joinPath OUTPUT_DIR output_filename

/-! ### Abstract filesystem and observable events of a pipeline run -/

/-- Abstract filesystem state touched by the pipeline: whether the fixed
temporary audio file exists, whether the fixed output directory exists, and
the association of output file paths to their text contents. -/
structure FS where
  tempAudio : Bool
  outDirExists : Bool
  files : List (String × String)
  deriving DecidableEq, Repr

/-- Observable events of a run, in chronological order: stdout prints,
spinner start/stop (stop includes the thread join, cf. `ProgressSpinner.stop`),
and filesystem operations. -/
inductive Ev where
  | out (s : String)
  | spinnerStart
  | spinnerStop
  | tempWrite
  | tempDelete
  | mkdirOutput
  | openOutput (path : String)
  | writeOutput (path content : String)
  deriving DecidableEq, Repr

/-- Event is part of the Persist stage (directory creation, output-file open
or output-file write). -/
def isPersistEv : Ev → Bool
  | Ev.mkdirOutput => true
  | Ev.openOutput _ => true
  | Ev.writeOutput _ _ => true
  | _ => false

/-- Event is a mkdir of the output directory. -/
def isMkdir : Ev → Bool
  | Ev.mkdirOutput => true
  | _ => false

/-- Event is the spinner start. -/
def isSpinnerStart : Ev → Bool
  | Ev.spinnerStart => true
  | _ => false

/-- Event is the deletion of the temporary audio file. -/
def isTempDelete : Ev → Bool
  | Ev.tempDelete => true
  | _ => false

/-- Scanning a trace chronologically, a `spinnerStop` is reached before any
Persist-stage event (true also when no Persist event occurs at all).  This is
the formalization of "the spinner's stop completes before the Persist stage
runs" for a concrete run. -/
def stopPrecedesPersist : List Ev → Bool
  | [] => true
  | e :: rest =>
    if isPersistEv e then false
    else if e = Ev.spinnerStop then true
    else stopPrecedesPersist rest

/-- Every `openOutput` in the trace is preceded by all `mkdirOutput` events:
no `mkdirOutput` occurs chronologically after an `openOutput`. -/
def mkdirPrecedesOpen : List Ev → Bool
  | [] => true
  | Ev.openOutput _ :: rest => rest.all (fun x => !isMkdir x) && mkdirPrecedesOpen rest
  | _ :: rest => mkdirPrecedesOpen rest

/-! ### Environment: behavior of the external collaborators

The remote service, the media library and the credential configuration are
opaque collaborators; an `Env` value fixes what each of them does in a given
run, and the pipeline is a function of it. -/

/-- Outcome of the moviepy calls inside `_extract_audio_from_video`:
success, an exception raised before any bytes were written to the output
audio path, or an exception raised after a partial output file was created. -/
inductive ExtractOutcome where
  | success
  | failBeforeWrite (msg : String)
  | failAfterWrite (msg : String)
  deriving DecidableEq, Repr

/-- Behavior of the external collaborators during one run: the value of the
credential environment variable (`none` = unset), the outcome of
`genai.configure`, the outcome of audio extraction, and the outcome of the
Gemini service call (`Except.error` = the call raised). -/
structure Env where
  apiKeyVar : Option String
  configureResult : Except String Unit
  extractOutcome : ExtractOutcome
  transcribeResult : Except String String

/-! ### Embedding of the pipeline functions (src/vtt.py lines 75-199) -/

/-- Embedding of `_get_api_key` (src/vtt.py lines 115-133).  `os.getenv`
yields `env.apiKeyVar`; Python's `if not api_key` is true for `None` and for
the empty string; `genai.configure` behaves as `env.configureResult`, and an
exception from it is caught, printed and converted to `None`. -/
def get_api_key (env : Env) : Option String × List Ev :=
  let api_key := env.apiKeyVar
  if api_key = none ∨ api_key = some "" then
    (none,
     [Ev.out ("Error: " ++ API_KEY_ENV_VAR ++ " environment variable not set."),
      Ev.out ("Please set your API key using: export " ++ API_KEY_ENV_VAR ++
        "=\x27your-api-key\x27")])
  else
    match env.configureResult with
    | Except.ok _ => (api_key, [])
    | Except.error e => (none, [Ev.out ("Error configuring the Gemini API: " ++ e)])

/-- Embedding of `_extract_audio_from_video` (src/vtt.py lines 136-151).
Any exception from the moviepy calls is caught; on failure, a pre-existing or
partially written file at the output audio path is removed before returning
`false`.  The function is total: no exception escapes its boundary. -/
def extract_audio_from_video (_video_file_path output_audio_path : String)
    (outcome : ExtractOutcome) (fs : FS) : Bool × FS × List Ev :=
  match outcome with
  | ExtractOutcome.success =>
    (true, { fs with tempAudio := true },
     [Ev.out "Extracting audio from video...", Ev.tempWrite,
      Ev.out ("Audio extracted successfully to: " ++ output_audio_path)])
  | ExtractOutcome.failBeforeWrite msg =>
    let evErr := [Ev.out "Extracting audio from video...",
                  Ev.out ("Error during audio extraction: " ++ msg)]
    if fs.tempAudio then
      (false, { fs with tempAudio := false },
       evErr ++ [Ev.tempDelete,
                 Ev.out ("Cleaned up temporary audio file: " ++ output_audio_path)])
    else (false, fs, evErr)
  | ExtractOutcome.failAfterWrite msg =>
    (false, { fs with tempAudio := false },
     [Ev.out "Extracting audio from video...", Ev.tempWrite,
      Ev.out ("Error during audio extraction: " ++ msg),
      Ev.tempDelete,
      Ev.out ("Cleaned up temporary audio file: " ++ output_audio_path)])

/-- Embedding of the OS-level `open(path, "w")` + `write` under the fixed
output directory: opening a path for writing fails when the directory is
missing (Python would raise `FileNotFoundError`); otherwise the file is
created or truncated and holds exactly the given content. -/
def osOpenWriteUnderOutputDir (fs : FS) (path content : String) : Except String FS :=
  if fs.outDirExists then
    Except.ok { fs with files := (path, content) :: fs.files.filter (fun kv => kv.1 != path) }
  else Except.error "FileNotFoundError"

/-- Embedding of `_save_transcription_to_file` (src/vtt.py lines 186-193):
create `OUTPUT_DIR` when it does not exist, then open the output path for
writing and write the whole text. -/
def save_transcription_to_file (transcription_text output_file_path : String)
    (fs : FS) : Except String (FS × List Ev) :=
  let step1 : FS × List Ev :=
    if fs.outDirExists then (fs, [])
    else ({ fs with outDirExists := true }, [Ev.mkdirOutput])
  match osOpenWriteUnderOutputDir step1.1 output_file_path transcription_text with
  | Except.error e => Except.error e
  | Except.ok fs2 =>
    Except.ok (fs2,
      step1.2 ++
      [Ev.out ("Saving transcription to: " ++ output_file_path),
       Ev.openOutput output_file_path,
       Ev.writeOutput output_file_path transcription_text,
       Ev.out ("Transcription saved successfully to: " ++ output_file_path)])

/-- Embedding of `_cleanup_temporary_audio_file` (src/vtt.py lines 196-199):
delete the temporary audio file when it exists; absence is not an error. -/
def cleanup_temporary_audio_file (audio_file_path : String) (fs : FS) : FS × List Ev :=
  if fs.tempAudio then
    ({ fs with tempAudio := false },
     [Ev.tempDelete,
      Ev.out ("\nTemporary audio file \x27" ++ audio_file_path ++
        "\x27 has been deleted.")])
  else (fs, [])

/-- Embedding of the orchestrator `transcribe_video_with_gemini`
(src/vtt.py lines 75-112).  The spinner is started before the service call;
a raising service call is caught and printed; the `finally` block stops the
spinner (`spinnerStop` marks the completed stop, i.e. thread joined and line
cleared) and then deletes the temporary audio file.  The model places the
service-call exception at the `generate_content` call, after the
"Sending audio" print. -/
def transcribe_video_with_gemini (env : Env) (video_file_path : String) (fs : FS) :
    FS × List Ev :=
  match get_api_key env with
  | (none, ev) => (fs, ev)
  | (some _, ev0) =>
    let ev1 := ev0 ++ [Ev.out ("Loading video from: " ++ video_file_path)]
    let temp_audio_file_path := TEMP_AUDIO_FILENAME
    match extract_audio_from_video video_file_path temp_audio_file_path
        env.extractOutcome fs with
    | (false, fs1, evE) => (fs1, ev1 ++ evE)
    | (true, fs1, evE) =>
      let ev2 := ev1 ++ evE ++ [Ev.spinnerStart]
      match env.transcribeResult with
      | Except.error e =>
        let evTry := [Ev.out "Sending audio to Gemini for transcription...",
                      Ev.out ("An error occurred during transcription: " ++ e)]
        let c := cleanup_temporary_audio_file temp_audio_file_path fs1
        (c.1, ev2 ++ evTry ++ [Ev.spinnerStop] ++ c.2)
      | Except.ok transcription_text =>
        let evT := [Ev.out "Sending audio to Gemini for transcription...",
                    Ev.out "Transcription received from Gemini successfully."]
        let output_transcription_file_path := generate_output_filename video_file_path
        match save_transcription_to_file transcription_text
            output_transcription_file_path fs1 with
        | Except.error e =>
          let c := cleanup_temporary_audio_file temp_audio_file_path fs1
          (c.1, ev2 ++ evT ++
            [Ev.out ("An error occurred during transcription: " ++ e), Ev.spinnerStop]
            ++ c.2)
        | Except.ok (fs2, evS) =>
          let c := cleanup_temporary_audio_file temp_audio_file_path fs2
          (c.1, ev2 ++ evT ++ evS ++ [Ev.spinnerStop] ++ c.2)

/-! ### Sequential spinner state (src/vtt.py lines 42-72) -/

/-- State of a `ProgressSpinner` object: its fields as set in `__init__`,
with the thread handle abstracted to an optional identifier. -/
structure ProgressSpinner where
  message : String
  spinning : Bool
  spinner_thread : Option Nat
  current_index : Nat
  deriving DecidableEq, Repr

/-- Embedding of `ProgressSpinner.__init__` (src/vtt.py lines 46-51). -/
def ProgressSpinner.init (message : String) : ProgressSpinner :=
  { message := message, spinning := false, spinner_thread := none, current_index := 0 }

/-- Spinner glyph list (src/vtt.py line 50). -/
def spinner_chars : List Char :=
  ['⠋', '⠙', '⠹', '⠸', '⠼', '⠴', '⠦', '⠧', '⠇', '⠏']

/-- Index update performed by one iteration of `_spin`
(src/vtt.py line 71): `(current_index + 1) % len(spinner_chars)`. -/
def spinStepIndex (current_index : Nat) : Nat :=
  (current_index + 1) % spinner_chars.length

/-- Value of `current_index` after `n` animation frames, starting from the
`__init__` value `0`. -/
def indexAfterFrames : Nat → Nat
  | 0 => 0
  | n + 1 => spinStepIndex (indexAfterFrames n)

/-- Line-clearing write performed by `stop` (src/vtt.py line 63):
a carriage return, `len(message) + 10` blanks, and a carriage return. -/
def clearLine (message : String) : String :=
  "\r" ++ String.mk (List.replicate (message.length + 10) ' ') ++ "\r"

/-- Joining a thread handle: joining `None` would be an `AttributeError` in
Python; the guard in `stop` is what prevents this. -/
def threadJoin : Option Nat → Except String Unit
  | none => Except.error "AttributeError"
  | some _ => Except.ok ()

/-- Embedding of `ProgressSpinner.stop` (src/vtt.py lines 58-64): clear the
flag, join the thread only when one was started, then write the clearing
blanks to stdout and flush.  Returns the updated object and the list of
stdout writes it performed. -/
def ProgressSpinner.stop (s : ProgressSpinner) :
    Except String (ProgressSpinner × List String) :=
  let s1 := { s with spinning := false }
  match (if s1.spinner_thread.isSome then threadJoin s1.spinner_thread
         else Except.ok ()) with
  | Except.error e => Except.error e
  | Except.ok _ => Except.ok (s1, [clearLine s.message])

/-! ### Interleaving model of the spinner thread and `stop`
(src/vtt.py lines 53-72)

After `start()`, the background thread loops: check `self.spinning`; when
true, write one animation frame (then sleep); when false, terminate.  The
main thread's `stop()` clears the flag, blocks in `join()` until the thread
has terminated, writes the clearing blanks, and returns.  Thread and main
steps interleave arbitrarily. -/

/-- Program counter of the background `_spin` thread. -/
inductive TPC where
  | check
  | work
  | done
  deriving DecidableEq, Repr

/-- Program counter of the main thread inside `stop()`. -/
inductive MPC where
  | run
  | joinWait
  | cleared
  | ret
  deriving DecidableEq, Repr

/-- Terminal-output events of the interleaving model: an animation frame from
the thread, the clearing write from `stop`, and the return of `stop`. -/
inductive CEv where
  | frame
  | clear
  | stopRet
  deriving DecidableEq, Repr

/-- Joint state of the two threads; `trace` lists events newest first. -/
structure SpinSys where
  spinning : Bool
  tpc : TPC
  mpc : MPC
  trace : List CEv
  deriving DecidableEq, Repr

/-- Interleaved small steps of the spinner thread and of `stop()` on the main
thread.  `mainJoin` can fire only once the spinner thread has terminated:
this is the blocking `join()`. -/
inductive SpinStep : SpinSys → SpinSys → Prop where
  | threadCheckTrue (s : SpinSys) (h1 : s.tpc = TPC.check) (h2 : s.spinning = true) :
      SpinStep s { s with tpc := TPC.work }
  | threadCheckFalse (s : SpinSys) (h1 : s.tpc = TPC.check) (h2 : s.spinning = false) :
      SpinStep s { s with tpc := TPC.done }
  | threadFrame (s : SpinSys) (h1 : s.tpc = TPC.work) :
      SpinStep s { s with tpc := TPC.check, trace := CEv.frame :: s.trace }
  | mainSetFlag (s : SpinSys) (h1 : s.mpc = MPC.run) :
      SpinStep s { s with spinning := false, mpc := MPC.joinWait }
  | mainJoin (s : SpinSys) (h1 : s.mpc = MPC.joinWait) (h2 : s.tpc = TPC.done) :
      SpinStep s { s with mpc := MPC.cleared, trace := CEv.clear :: s.trace }
  | mainRet (s : SpinSys) (h1 : s.mpc = MPC.cleared) :
      SpinStep s { s with mpc := MPC.ret, trace := CEv.stopRet :: s.trace }

/-- State right after `start()`: flag set, thread at its loop check, main
thread still in the foreground call, empty trace. -/
def spinInit : SpinSys :=
  { spinning := true, tpc := TPC.check, mpc := MPC.run, trace := [] }

/-- States reachable from `spinInit` by interleaved steps. -/
inductive SpinReach : SpinSys → Prop where
  | init : SpinReach spinInit
  | step {s t : SpinSys} : SpinReach s → SpinStep s t → SpinReach t

/-- Inductive invariant of the interleaving model. -/
def SpinInv (s : SpinSys) : Prop :=
  (s.mpc ≠ MPC.run → s.spinning = false) ∧
  ((s.mpc = MPC.cleared ∨ s.mpc = MPC.ret) → s.tpc = TPC.done) ∧
  (s.mpc ≠ MPC.ret → CEv.stopRet ∉ s.trace) ∧
  (s.mpc = MPC.ret → ∃ t, s.trace = CEv.stopRet :: t ∧ CEv.stopRet ∉ t)

/-! ### File-descriptor model of `suppress_stderr` (src/vtt.py lines 22-39) -/

/-- What a descriptor can refer to: the original stderr sink, the discard
sink `/dev/null`, or some other sink. -/
inductive Sink where
  | origErr
  | devnullSink
  | other (n : Nat)
  deriving DecidableEq, Repr

/-- Kernel descriptor table: `next` is above every allocated descriptor, and
`table fd` is the sink `fd` refers to (`none` = not allocated). -/
structure FDState where
  next : Nat
  table : Nat → Option Sink

/-- Well-formedness: every descriptor at or above `next` is unallocated. -/
def FDWF (st : FDState) : Prop := ∀ fd, st.next ≤ fd → st.table fd = none

/-- Embedding of `os.dup`: fails on an unallocated descriptor, otherwise
allocates a fresh descriptor referring to the same sink. -/
def osDup (st : FDState) (fd : Nat) : Except String (Nat × FDState) :=
  match st.table fd with
  | none => Except.error "EBADF"
  | some s =>
    Except.ok (st.next,
      { next := st.next + 1, table := fun x => if x = st.next then some s else st.table x })

/-- Embedding of `os.open(os.devnull, os.O_WRONLY)`: allocates a fresh
descriptor referring to the discard sink. -/
def osOpenDevnull (st : FDState) : Nat × FDState :=
  (st.next,
   { next := st.next + 1,
     table := fun x => if x = st.next then some Sink.devnullSink else st.table x })

/-- Embedding of `os.dup2(src, dst)`: fails on an unallocated source,
otherwise makes `dst` refer to the source's sink. -/
def osDup2 (st : FDState) (src dst : Nat) : Except String FDState :=
  match st.table src with
  | none => Except.error "EBADF"
  | some s =>
    Except.ok { next := st.next, table := fun x => if x = dst then some s else st.table x }

/-- Embedding of `os.close`: fails on an unallocated descriptor, otherwise
deallocates it. -/
def osClose (st : FDState) (fd : Nat) : Except String FDState :=
  match st.table fd with
  | none => Except.error "EBADF"
  | some _ =>
    Except.ok { next := st.next, table := fun x => if x = fd then none else st.table x }

/-- The `finally` block of `suppress_stderr` (src/vtt.py lines 35-39):
duplicate the saved descriptor back over stderr, then close the saved and the
devnull descriptors.  A failing descriptor operation propagates and skips the
remaining operations. -/
def finallyBlock (st : FDState) (original_stderr_fd saved_stderr_fd devnull_fd : Nat) :
    Option String × FDState :=
  match osDup2 st saved_stderr_fd original_stderr_fd with
  | Except.error e => (some e, st)
  | Except.ok st1 =>
    match osClose st1 saved_stderr_fd with
    | Except.error e => (some e, st1)
    | Except.ok st2 =>
      match osClose st2 devnull_fd with
      | Except.error e => (some e, st2)
      | Except.ok st3 => (none, st3)

/-- Embedding of one use of `suppress_stderr` around a guarded block
(src/vtt.py lines 22-39).  `body` is the exception raised by the guarded
block (`none` = it returned normally); the block does not touch the tracked
descriptors.  The result is the exception propagating out of the `with`
statement (`none` = normal exit) together with the final descriptor table.
The `os.dup2` inside the `try` triggers the `finally` on failure; an
exception from the `finally` itself supersedes the pending one. -/
def suppress_stderr_run (st0 : FDState) (original_stderr_fd : Nat)
    (body : Option String) : Option String × FDState :=
  match osDup st0 original_stderr_fd with
  | Except.error e => (some e, st0)
  | Except.ok (saved_stderr_fd, st1) =>
    let opened := osOpenDevnull st1
    let devnull_fd := opened.1
    let st2 := opened.2
    match osDup2 st2 devnull_fd original_stderr_fd with
    | Except.error e =>
      match finallyBlock st2 original_stderr_fd saved_stderr_fd devnull_fd with
      | (some e2, stF) => (some e2, stF)
      | (none, stF) => (some e, stF)
    | Except.ok st3 =>
      match finallyBlock st3 original_stderr_fd saved_stderr_fd devnull_fd with
      | (some e2, stF) => (some e2, stF)
      | (none, stF) => (body, stF)

/-! ### Concrete instances used by witnesses and counterexamples -/

/-- Fresh filesystem: no temporary audio, no output directory, no files. -/
def fsInit : FS := { tempAudio := false, outDirExists := false, files := [] }

/-- Environment of a fully successful run. -/
def envSuccess : Env :=
  { apiKeyVar := some "k", configureResult := Except.ok (),
    extractOutcome := ExtractOutcome.success,
    transcribeResult := Except.ok "hello" }

/-- Trace of a fully successful run on `video.mp4` from a fresh filesystem. -/
def traceSuccess : List Ev :=
  (transcribe_video_with_gemini envSuccess "video.mp4" fsInit).2

/-! ## Helper lemmas -/

/-- When `rfindN` finds nothing, the character does not occur. -/
theorem rfindN_eq_none {c : Char} {l : List Char} (h : rfindN c l = none) : c ∉ l := by
  induction l with
  | nil => simp
  | cons a as ih =>
    rw [rfindN] at h
    cases hr : rfindN c as with
    | some j => rw [hr] at h; cases h
    | none =>
      rw [hr] at h
      by_cases hac : a = c
      · rw [if_pos hac] at h; cases h
      · rw [if_neg hac] at h
        intro hmem
        rcases List.mem_cons.mp hmem with h1 | h2
        · exact hac h1.symm
        · exact ih hr h2

/-- `rfindN` returns the last occurrence: nothing beyond it matches. -/
theorem rfindN_drop {c : Char} {l : List Char} {i : Nat} (h : rfindN c l = some i) :
    c ∉ l.drop (i + 1) := by
  induction l generalizing i with
  | nil => cases h
  | cons a as ih =>
    rw [rfindN] at h
    cases hr : rfindN c as with
    | some j =>
      rw [hr] at h
      obtain rfl : j + 1 = i := by injection h
      simpa using ih hr
    | none =>
      rw [hr] at h
      by_cases hac : a = c
      · rw [if_pos hac] at h
        obtain rfl : (0 : Nat) = i := by injection h
        simpa using rfindN_eq_none hr
      · rw [if_neg hac] at h; cases h

/-- The basename of a path contains no separator. -/
theorem slash_not_mem_basenameL (l : List Char) : '/' ∉ basenameL l := by
  unfold basenameL
  split
  · next hr => exact rfindN_eq_none hr
  · next i hr => exact rfindN_drop hr

/-- The splitext scan either keeps the whole input or splits it at the dot. -/
theorem splitextLoop_shape (p : List Char) (d : Nat) :
    ∀ fuel fn, splitextLoop p d fuel fn = (p, []) ∨
      splitextLoop p d fuel fn = (p.take d, p.drop d) := by
  intro fuel
  induction fuel with
  | zero => intro fn; left; rfl
  | succ n ih =>
    intro fn
    rw [splitextLoop]
    by_cases hc : p.getD fn ' ' ≠ '.'
    · rw [if_pos hc]; right; rfl
    · rw [if_neg hc]; exact ih (fn + 1)

/-- The root part produced by `splitextL` is the input or a prefix of it. -/
theorem splitextL_fst_shape (l : List Char) :
    (splitextL l).1 = l ∨ ∃ k, (splitextL l).1 = l.take k := by
  unfold splitextL
  split
  · left; rfl
  · next d _ =>
    split
    · rcases splitextLoop_shape l d d 0 with h | h <;> rw [h]
      · left; rfl
      · right; exact ⟨d, rfl⟩
    · next s _ =>
      split
      · rcases splitextLoop_shape l d (d - (s + 1)) (s + 1) with h | h <;> rw [h]
        · left; rfl
        · right; exact ⟨d, rfl⟩
      · left; rfl

/-- Join inserts a single separator when the left part is nonempty and does
not end with one and the right part does not start with one. -/
theorem joinPathL_eq_cons (a b : List Char) (ha : a ≠ []) (ha2 : a.getLast? ≠ some '/')
    (hb : b.head? ≠ some '/') : joinPathL a b = a ++ '/' :: b := by
  unfold joinPathL
  rw [if_neg hb, if_neg (not_or.mpr ⟨ha, ha2⟩)]

/-- The derived output path written out: output directory, separator, root of
the basename, fixed suffix. -/
theorem generate_output_filename_eq (p : String) :
    generate_output_filename p =
      OUTPUT_DIR ++ "/" ++ (splitext (basename p)).1 ++ TRANSCRIPTION_FILE_SUFFIX := by
  have hm : '/' ∉ basenameL p.data := slash_not_mem_basenameL p.data
  have hr : '/' ∉ (splitextL (basenameL p.data)).1 := by
    rcases splitextL_fst_shape (basenameL p.data) with h | ⟨k, h⟩
    · rw [h]; exact hm
    · rw [h]; intro hc; exact hm (List.take_subset k _ hc)
  have hhead :
      ((splitextL (basenameL p.data)).1 ++ TRANSCRIPTION_FILE_SUFFIX.data).head? ≠
        some '/' := by
    cases hc : (splitextL (basenameL p.data)).1 with
    | nil => decide
    | cons c cs =>
      simp only [List.cons_append, List.head?_cons]
      intro h
      apply hr
      rw [hc]
      have hc2 : c = '/' := by injection h
      rw [hc2]; exact List.mem_cons_self _ _
  show joinPath OUTPUT_DIR
      ((splitext (basename p)).1 ++ TRANSCRIPTION_FILE_SUFFIX) = _
  unfold joinPath
  rw [show ((splitext (basename p)).1 ++ TRANSCRIPTION_FILE_SUFFIX).data =
        (splitextL (basenameL p.data)).1 ++ TRANSCRIPTION_FILE_SUFFIX.data from rfl]
  rw [joinPathL_eq_cons _ _ (by decide) (by decide) hhead]
  apply String.ext
  show OUTPUT_DIR.data ++ '/' :: ((splitextL (basenameL p.data)).1 ++
      TRANSCRIPTION_FILE_SUFFIX.data) =
    ((OUTPUT_DIR.data ++ ['/']) ++ (splitextL (basenameL p.data)).1) ++
      TRANSCRIPTION_FILE_SUFFIX.data
  simp

/-- With a nonempty key and successful configuration, `_get_api_key` returns
the key and prints nothing. -/
theorem get_api_key_ok (env : Env) (k : String) (hk : env.apiKeyVar = some k)
    (hk2 : k ≠ "") (hc : env.configureResult = Except.ok ()) :
    get_api_key env = (some k, []) := by
  unfold get_api_key
  rw [hk, if_neg (by simp [hk2]), hc]

/-- Shape of a run in which the credential and extraction succeed and the
service call raises. -/
theorem run_shape_error (env : Env) (p : String) (fs : FS) (k e : String)
    (hk : env.apiKeyVar = some k) (hk2 : k ≠ "")
    (hc : env.configureResult = Except.ok ())
    (hx : env.extractOutcome = ExtractOutcome.success)
    (ht : env.transcribeResult = Except.error e) :
    transcribe_video_with_gemini env p fs =
      ({ fs with tempAudio := false },
       [Ev.out ("Loading video from: " ++ p),
        Ev.out "Extracting audio from video...", Ev.tempWrite,
        Ev.out ("Audio extracted successfully to: " ++ TEMP_AUDIO_FILENAME),
        Ev.spinnerStart,
        Ev.out "Sending audio to Gemini for transcription...",
        Ev.out ("An error occurred during transcription: " ++ e),
        Ev.spinnerStop,
        Ev.tempDelete,
        Ev.out ("\nTemporary audio file \x27" ++ TEMP_AUDIO_FILENAME ++
          "\x27 has been deleted.")]) := by
  unfold transcribe_video_with_gemini
  rw [get_api_key_ok env k hk hk2 hc, hx, ht]
  rfl

/-- `_save_transcription_to_file` always succeeds: the directory is created
first when missing, then the file is created or overwritten with the text. -/
theorem save_ok (text path : String) (fs : FS) :
    save_transcription_to_file text path fs =
      Except.ok
        ({ tempAudio := fs.tempAudio, outDirExists := true,
           files := (path, text) :: fs.files.filter (fun kv => kv.1 != path) },
         (if fs.outDirExists then ([] : List Ev) else [Ev.mkdirOutput]) ++
         [Ev.out ("Saving transcription to: " ++ path),
          Ev.openOutput path,
          Ev.writeOutput path text,
          Ev.out ("Transcription saved successfully to: " ++ path)]) := by
  by_cases hd : fs.outDirExists <;>
    simp [save_transcription_to_file, osOpenWriteUnderOutputDir, hd]

/-- Shape of a fully successful run; the Persist part depends on whether the
output directory already existed. -/
theorem run_shape_ok (env : Env) (p : String) (fs : FS) (k t : String)
    (hk : env.apiKeyVar = some k) (hk2 : k ≠ "")
    (hc : env.configureResult = Except.ok ())
    (hx : env.extractOutcome = ExtractOutcome.success)
    (ht : env.transcribeResult = Except.ok t) :
    transcribe_video_with_gemini env p fs =
      ({ tempAudio := false, outDirExists := true,
         files := (generate_output_filename p, t) ::
           fs.files.filter (fun kv => kv.1 != generate_output_filename p) },
       [Ev.out ("Loading video from: " ++ p),
        Ev.out "Extracting audio from video...", Ev.tempWrite,
        Ev.out ("Audio extracted successfully to: " ++ TEMP_AUDIO_FILENAME),
        Ev.spinnerStart,
        Ev.out "Sending audio to Gemini for transcription...",
        Ev.out "Transcription received from Gemini successfully."] ++
       ((if fs.outDirExists then ([] : List Ev) else [Ev.mkdirOutput]) ++
        [Ev.out ("Saving transcription to: " ++ generate_output_filename p),
         Ev.openOutput (generate_output_filename p),
         Ev.writeOutput (generate_output_filename p) t,
         Ev.out ("Transcription saved successfully to: " ++
           generate_output_filename p)]) ++
       [Ev.spinnerStop, Ev.tempDelete,
        Ev.out ("\nTemporary audio file \x27" ++ TEMP_AUDIO_FILENAME ++
          "\x27 has been deleted.")]) := by
  unfold transcribe_video_with_gemini
  rw [get_api_key_ok env k hk hk2 hc, hx, ht]
  by_cases hd : fs.outDirExists <;>
    simp [save_ok, cleanup_temporary_audio_file, extract_audio_from_video, hd]

/-! ## Claim theorems -/

/-- C5: the derived output file path equals the fixed output directory joined
with the basename minus its last extension plus the fixed suffix, and it is a
pure function of the input basename: inputs with equal basenames in different
directories yield the same output path. -/
theorem output_path_pure_function_of_basename (p q : String)
    (h : basename p = basename q) :
    generate_output_filename p =
      OUTPUT_DIR ++ "/" ++ (splitext (basename p)).1 ++ TRANSCRIPTION_FILE_SUFFIX
    ∧ generate_output_filename p = generate_output_filename q := by
  refine ⟨generate_output_filename_eq p, ?_⟩
  unfold generate_output_filename
  rw [h]

/-- C5 witness: two inputs with the same basename in different directories. -/
theorem output_path_pure_function_witness :
    generate_output_filename "a/v.mp4" =
      OUTPUT_DIR ++ "/" ++ (splitext (basename "a/v.mp4")).1 ++ TRANSCRIPTION_FILE_SUFFIX
    ∧ generate_output_filename "a/v.mp4" = generate_output_filename "b/v.mp4" :=
  output_path_pure_function_of_basename "a/v.mp4" "b/v.mp4" (by decide)

/-- C10: `current_index` starts at `0` and after any number of animation
frames remains a valid index into the 10-element glyph list, because every
loop iteration maps it through `(current_index + 1) % len(spinner_chars)`. -/
theorem current_index_always_in_bounds :
    indexAfterFrames 0 = 0 ∧ ∀ n : Nat, indexAfterFrames n < spinner_chars.length := by
  refine ⟨rfl, ?_⟩
  intro n
  cases n with
  | zero => decide
  | succ m =>
    show (indexAfterFrames m + 1) % spinner_chars.length < spinner_chars.length
    exact Nat.mod_lt _ (by decide)

/-- C7: calling `stop()` on a spinner whose `start()` was never called
returns normally (the `if self.spinner_thread` guard skips the join), leaves
the spinner object unchanged, and performs only the line-clearing write. -/
theorem stop_before_start_safe (message : String) :
    ProgressSpinner.stop (ProgressSpinner.init message) =
      Except.ok (ProgressSpinner.init message, [clearLine message]) := rfl

/-- C3: whenever extraction fails, `_extract_audio_from_video` returns
`false` (it never raises past its boundary) and no partial intermediate audio
file remains at the output path. -/
theorem extract_failure_no_artifact (v o : String) (outcome : ExtractOutcome)
    (fs : FS) (h : outcome ≠ ExtractOutcome.success) :
    (extract_audio_from_video v o outcome fs).1 = false ∧
    (extract_audio_from_video v o outcome fs).2.1.tempAudio = false := by
  cases outcome with
  | success => exact absurd rfl h
  | failBeforeWrite msg =>
    simp only [extract_audio_from_video]
    split
    · exact ⟨rfl, rfl⟩
    · next hft => exact ⟨rfl, by simpa using hft⟩
  | failAfterWrite msg => exact ⟨rfl, rfl⟩

/-- C3 witness: a concrete failed extraction. -/
theorem extract_failure_witness :
    (extract_audio_from_video "v.mp4" TEMP_AUDIO_FILENAME
        (ExtractOutcome.failBeforeWrite "boom") fsInit).1 = false ∧
    (extract_audio_from_video "v.mp4" TEMP_AUDIO_FILENAME
        (ExtractOutcome.failBeforeWrite "boom") fsInit).2.1.tempAudio = false :=
  extract_failure_no_artifact "v.mp4" TEMP_AUDIO_FILENAME
    (ExtractOutcome.failBeforeWrite "boom") fsInit (by decide)

/-- C4: with the credential environment variable unset the pipeline leaves
the filesystem untouched and its only observable events are the two
remediation prints naming the variable and the export syntax; it returns
before any other I/O. -/
theorem missing_api_key_no_io (env : Env) (p : String) (fs : FS)
    (h : env.apiKeyVar = none) :
    (transcribe_video_with_gemini env p fs).1 = fs ∧
    (transcribe_video_with_gemini env p fs).2 =
      [Ev.out "Error: GOOGLE_API_KEY environment variable not set.",
       Ev.out "Please set your API key using: export GOOGLE_API_KEY=\x27your-api-key\x27"] := by
  have hg : get_api_key env =
      (none,
       [Ev.out "Error: GOOGLE_API_KEY environment variable not set.",
        Ev.out "Please set your API key using: export GOOGLE_API_KEY=\x27your-api-key\x27"]) := by
    unfold get_api_key
    rw [h, if_pos (Or.inl rfl)]
    decide
  unfold transcribe_video_with_gemini
  rw [hg]
  exact ⟨rfl, rfl⟩

/-- C2: when the service call raises after a successful extraction, the
pipeline returns with the intermediate audio file deleted, the output files
and output directory untouched (no Persist event ever occurs, so the output
write is never attempted), and the user-facing error message printed. -/
theorem transcription_failure_no_output (env : Env) (p : String) (fs : FS)
    (k e : String) (hk : env.apiKeyVar = some k) (hk2 : k ≠ "")
    (hc : env.configureResult = Except.ok ())
    (hx : env.extractOutcome = ExtractOutcome.success)
    (ht : env.transcribeResult = Except.error e) :
    (transcribe_video_with_gemini env p fs).1.tempAudio = false ∧
    (transcribe_video_with_gemini env p fs).1.files = fs.files ∧
    (transcribe_video_with_gemini env p fs).1.outDirExists = fs.outDirExists ∧
    ((transcribe_video_with_gemini env p fs).2.all fun ev => !isPersistEv ev) = true ∧
    Ev.out ("An error occurred during transcription: " ++ e) ∈
      (transcribe_video_with_gemini env p fs).2 := by
  rw [run_shape_error env p fs k e hk hk2 hc hx ht]
  refine ⟨rfl, rfl, rfl, rfl, ?_⟩
  simp

/-- C2 witness: a concrete run whose service call raises. -/
theorem transcription_failure_witness :
    (transcribe_video_with_gemini
        { apiKeyVar := some "k", configureResult := Except.ok (),
          extractOutcome := ExtractOutcome.success,
          transcribeResult := Except.error "boom" } "video.mp4" fsInit).1.tempAudio
        = false ∧
    (transcribe_video_with_gemini
        { apiKeyVar := some "k", configureResult := Except.ok (),
          extractOutcome := ExtractOutcome.success,
          transcribeResult := Except.error "boom" } "video.mp4" fsInit).1.files
        = fsInit.files ∧
    (transcribe_video_with_gemini
        { apiKeyVar := some "k", configureResult := Except.ok (),
          extractOutcome := ExtractOutcome.success,
          transcribeResult := Except.error "boom" } "video.mp4" fsInit).1.outDirExists
        = fsInit.outDirExists ∧
    ((transcribe_video_with_gemini
        { apiKeyVar := some "k", configureResult := Except.ok (),
          extractOutcome := ExtractOutcome.success,
          transcribeResult := Except.error "boom" } "video.mp4" fsInit).2.all
        fun ev => !isPersistEv ev) = true ∧
    Ev.out ("An error occurred during transcription: " ++ "boom") ∈
      (transcribe_video_with_gemini
        { apiKeyVar := some "k", configureResult := Except.ok (),
          extractOutcome := ExtractOutcome.success,
          transcribeResult := Except.error "boom" } "video.mp4" fsInit).2 :=
  transcription_failure_no_output _ "video.mp4" fsInit "k" "boom" rfl
    (by decide) rfl rfl rfl

/-- C1 counterexample: in the concrete successful run the Persist stage
events occur strictly before the spinner stop, so the claimed order ("spinner
off, then Persist") is false on the code: scanning the trace chronologically
hits a Persist event before any `spinnerStop`. -/
theorem stop_before_persist_counterexample :
    stopPrecedesPersist traceSuccess = false ∧
    traceSuccess.any isPersistEv = true ∧
    Ev.spinnerStop ∈ traceSuccess := by
  refine ⟨by decide, by decide, by decide⟩

/-- C1 (amended): in every run that reaches the transcription stage, the
spinner start occurs before the stop, every Persist event precedes the
spinner stop (none follows it), and the Cleanup deletion of the temporary
audio file happens only after the stop: the realized order is spinner on,
Transcription, Persist, spinner off, Cleanup. -/
theorem spinner_stop_after_persist_before_cleanup (env : Env) (p : String)
    (fs : FS) (k : String) (hk : env.apiKeyVar = some k) (hk2 : k ≠ "")
    (hc : env.configureResult = Except.ok ())
    (hx : env.extractOutcome = ExtractOutcome.success) :
    ∃ l1 l2, (transcribe_video_with_gemini env p fs).2 =
        l1 ++ Ev.spinnerStop :: l2 ∧
      l1.any isSpinnerStart = true ∧
      (l2.all fun e => !isPersistEv e) = true ∧
      (l1.all fun e => !isTempDelete e) = true := by
  cases htr : env.transcribeResult with
  | error e =>
    rw [run_shape_error env p fs k e hk hk2 hc hx htr]
    exact ⟨[Ev.out ("Loading video from: " ++ p),
            Ev.out "Extracting audio from video...", Ev.tempWrite,
            Ev.out ("Audio extracted successfully to: " ++ TEMP_AUDIO_FILENAME),
            Ev.spinnerStart,
            Ev.out "Sending audio to Gemini for transcription...",
            Ev.out ("An error occurred during transcription: " ++ e)],
           [Ev.tempDelete,
            Ev.out ("\nTemporary audio file \x27" ++ TEMP_AUDIO_FILENAME ++
              "\x27 has been deleted.")],
           rfl, rfl, rfl, rfl⟩
  | ok t =>
    rw [run_shape_ok env p fs k t hk hk2 hc hx htr]
    by_cases hd : fs.outDirExists
    · rw [if_pos hd]
      exact ⟨[Ev.out ("Loading video from: " ++ p),
              Ev.out "Extracting audio from video...", Ev.tempWrite,
              Ev.out ("Audio extracted successfully to: " ++ TEMP_AUDIO_FILENAME),
              Ev.spinnerStart,
              Ev.out "Sending audio to Gemini for transcription...",
              Ev.out "Transcription received from Gemini successfully.",
              Ev.out ("Saving transcription to: " ++ generate_output_filename p),
              Ev.openOutput (generate_output_filename p),
              Ev.writeOutput (generate_output_filename p) t,
              Ev.out ("Transcription saved successfully to: " ++
                generate_output_filename p)],
             [Ev.tempDelete,
              Ev.out ("\nTemporary audio file \x27" ++ TEMP_AUDIO_FILENAME ++
                "\x27 has been deleted.")],
             rfl, rfl, rfl, rfl⟩
    · rw [if_neg hd]
      exact ⟨[Ev.out ("Loading video from: " ++ p),
              Ev.out "Extracting audio from video...", Ev.tempWrite,
              Ev.out ("Audio extracted successfully to: " ++ TEMP_AUDIO_FILENAME),
              Ev.spinnerStart,
              Ev.out "Sending audio to Gemini for transcription...",
              Ev.out "Transcription received from Gemini successfully.",
              Ev.mkdirOutput,
              Ev.out ("Saving transcription to: " ++ generate_output_filename p),
              Ev.openOutput (generate_output_filename p),
              Ev.writeOutput (generate_output_filename p) t,
              Ev.out ("Transcription saved successfully to: " ++
                generate_output_filename p)],
             [Ev.tempDelete,
              Ev.out ("\nTemporary audio file \x27" ++ TEMP_AUDIO_FILENAME ++
                "\x27 has been deleted.")],
             rfl, rfl, rfl, rfl⟩

/-- C1 amended-claim witness: the successful concrete run. -/
theorem spinner_stop_order_witness :
    ∃ l1 l2, (transcribe_video_with_gemini envSuccess "video.mp4" fsInit).2 =
        l1 ++ Ev.spinnerStop :: l2 ∧
      l1.any isSpinnerStart = true ∧
      (l2.all fun e => !isPersistEv e) = true ∧
      (l1.all fun e => !isTempDelete e) = true :=
  spinner_stop_after_persist_before_cleanup envSuccess "video.mp4" fsInit "k"
    rfl (by decide) rfl rfl

/-- C6: the Persist step always succeeds: it creates the output directory
when missing before any attempt to open the output file (directory creation
precedes the open in the event order), then stores exactly the given text at
the path, overwriting any prior file of that name — so re-running on the
same input succeeds and replaces the prior output. -/
theorem save_creates_dir_then_overwrites (text path : String) (fs : FS) :
    ∃ fs2 ev, save_transcription_to_file text path fs = Except.ok (fs2, ev) ∧
      fs2.outDirExists = true ∧
      fs2.files.lookup path = some text ∧
      (fs.outDirExists = false → ev.head? = some Ev.mkdirOutput) ∧
      mkdirPrecedesOpen ev = true := by
  refine ⟨_, _, save_ok text path fs, rfl, ?_, ?_, ?_⟩
  · simp [List.lookup]
  · intro hd
    rw [hd]
    rfl
  · by_cases hd : fs.outDirExists = true
    · rw [if_pos hd]; rfl
    · rw [if_neg hd]; rfl

/-- C6 witness: a concrete save from a fresh filesystem. -/
theorem save_creates_dir_witness :
    ∃ fs2 ev, save_transcription_to_file "hello"
        "output/v_gemini_transcription.txt" fsInit = Except.ok (fs2, ev) ∧
      fs2.outDirExists = true ∧
      fs2.files.lookup "output/v_gemini_transcription.txt" = some "hello" ∧
      (fsInit.outDirExists = false → ev.head? = some Ev.mkdirOutput) ∧
      mkdirPrecedesOpen ev = true :=
  save_creates_dir_then_overwrites "hello" "output/v_gemini_transcription.txt" fsInit

/-- C4 witness: concrete run with the variable unset. -/
theorem missing_api_key_witness :
    (transcribe_video_with_gemini
        { apiKeyVar := none, configureResult := Except.ok (),
          extractOutcome := ExtractOutcome.success,
          transcribeResult := Except.ok "t" } "video.mp4" fsInit).1 = fsInit ∧
    (transcribe_video_with_gemini
        { apiKeyVar := none, configureResult := Except.ok (),
          extractOutcome := ExtractOutcome.success,
          transcribeResult := Except.ok "t" } "video.mp4" fsInit).2 =
      [Ev.out "Error: GOOGLE_API_KEY environment variable not set.",
       Ev.out "Please set your API key using: export GOOGLE_API_KEY=\x27your-api-key\x27"] :=
  missing_api_key_no_io _ "video.mp4" fsInit rfl

/-- The invariant holds in the initial state. -/
theorem spinInv_init : SpinInv spinInit := by
  refine ⟨?_, ?_, ?_, ?_⟩ <;> simp [spinInit, SpinInv]

/-- The invariant is preserved by every interleaved step. -/
theorem spinInv_step {s t : SpinSys} (hinv : SpinInv s) (hstep : SpinStep s t) :
    SpinInv t := by
  obtain ⟨i1, i2, i3, i4⟩ := hinv
  cases hstep with
  | threadCheckTrue h1 h2 =>
    refine ⟨i1, ?_, i3, ?_⟩
    · intro h
      have hd := i2 h
      rw [h1] at hd
      cases hd
    · intro h
      have hd := i2 (Or.inr h)
      rw [h1] at hd
      cases hd
  | threadCheckFalse h1 h2 =>
    exact ⟨i1, fun _ => rfl, i3, fun h => i4 h⟩
  | threadFrame h1 =>
    refine ⟨i1, ?_, ?_, ?_⟩
    · intro h
      have hd := i2 h
      rw [h1] at hd
      cases hd
    · intro h hm
      rcases List.mem_cons.mp hm with he | hm2
      · cases he
      · exact i3 h hm2
    · intro h
      have hd := i2 (Or.inr h)
      rw [h1] at hd
      cases hd
  | mainSetFlag h1 =>
    refine ⟨fun _ => rfl, ?_, ?_, ?_⟩
    · intro h
      rcases h with h | h <;> cases h
    · intro _
      exact i3 (by rw [h1]; intro hco; cases hco)
    · intro h
      cases h
  | mainJoin h1 h2 =>
    refine ⟨?_, fun _ => h2, ?_, ?_⟩
    · intro _
      exact i1 (by rw [h1]; intro hco; cases hco)
    · intro _ hm
      rcases List.mem_cons.mp hm with he | hm2
      · cases he
      · exact i3 (by rw [h1]; intro hco; cases hco) hm2
    · intro h
      cases h
  | mainRet h1 =>
    refine ⟨?_, fun _ => i2 (Or.inl h1), ?_, ?_⟩
    · intro _
      exact i1 (by rw [h1]; intro hco; cases hco)
    · intro h
      exact absurd rfl h
    · intro _
      exact ⟨_, rfl, i3 (by rw [h1]; intro hco; cases hco)⟩

/-- The invariant holds in every reachable state. -/
theorem spinInv_reach {s : SpinSys} (h : SpinReach s) : SpinInv s := by
  induction h with
  | init => exact spinInv_init
  | step hr hs ih => exact spinInv_step ih hs

/-- C8: in every reachable interleaving of the spinner thread with `stop()`,
no animation frame is written after `stop()` returns: `stop` clears the flag,
joins the thread to completion, and only then clears the line and returns, so
the part of the trace after the `stopRet` event contains no `frame` event. -/
theorem no_frame_after_stop_returns (s : SpinSys) (h : SpinReach s)
    (pre post : List CEv) (ht : s.trace = pre ++ CEv.stopRet :: post) :
    CEv.frame ∉ pre := by
  obtain ⟨i1, i2, i3, i4⟩ := spinInv_reach h
  have hmem : CEv.stopRet ∈ s.trace := by rw [ht]; simp
  have hret : s.mpc = MPC.ret := by
    by_contra hne
    exact i3 hne hmem
  obtain ⟨t, htr, hnt⟩ := i4 hret
  cases pre with
  | nil => simp
  | cons x pre2 =>
    rw [ht] at htr
    simp only [List.cons_append] at htr
    injection htr with hx htail
    exfalso
    apply hnt
    rw [← htail]
    simp

/-- C8 witness: a complete concrete run — flag cleared, thread observes it
and terminates, join returns, line cleared, stop returns. -/
theorem no_frame_after_stop_witness :
    SpinReach (⟨false, TPC.done, MPC.ret, [CEv.stopRet, CEv.clear]⟩ : SpinSys) ∧
    CEv.frame ∉ ([] : List CEv) := by
  have h1 : SpinReach (⟨false, TPC.check, MPC.joinWait, []⟩ : SpinSys) :=
    SpinReach.step SpinReach.init (SpinStep.mainSetFlag spinInit rfl)
  have h2 : SpinReach (⟨false, TPC.done, MPC.joinWait, []⟩ : SpinSys) :=
    SpinReach.step h1 (SpinStep.threadCheckFalse _ rfl rfl)
  have h3 : SpinReach (⟨false, TPC.done, MPC.cleared, [CEv.clear]⟩ : SpinSys) :=
    SpinReach.step h2 (SpinStep.mainJoin _ rfl rfl)
  have h4 : SpinReach (⟨false, TPC.done, MPC.ret, [CEv.stopRet, CEv.clear]⟩ : SpinSys) :=
    SpinReach.step h3 (SpinStep.mainRet _ rfl)
  exact ⟨h4, no_frame_after_stop_returns _ h4 [] [CEv.clear] rfl⟩

/-- C9: one use of the suppressor around a guarded block, starting from a
well-formed descriptor table in which stderr refers to sink `s0`: whatever
the block does, the propagated outcome is exactly the block's own outcome
(descriptor operations never fail here and nothing is swallowed), stderr is
restored to `s0`, and the descriptor table is extensionally unchanged — the
duplicated and opened descriptors are all closed, so repeated use leaks
nothing.  Additionally, when a descriptor operation itself must fail (stderr
unallocated), the failure propagates and the table is untouched. -/
theorem suppress_stderr_restores (st0 : FDState) (er : Nat) (body : Option String)
    (s0 : Sink) (hwf : FDWF st0) (her : st0.table er = some s0) :
    (suppress_stderr_run st0 er body).1 = body ∧
    (∀ fd, (suppress_stderr_run st0 er body).2.table fd = st0.table fd) ∧
    (∀ st : FDState, st.table er = none →
      (suppress_stderr_run st er body).1.isSome = true ∧
      (suppress_stderr_run st er body).2 = st) := by
  have hlt : er < st0.next := by
    by_contra hge
    push_neg at hge
    rw [hwf er hge] at her
    cases her
  have hA : st0.next ≠ er := by omega
  have hB : er ≠ st0.next := by omega
  have hC : st0.next + 1 ≠ er := by omega
  have hD : er ≠ st0.next + 1 := by omega
  have hE : st0.next ≠ st0.next + 1 := by omega
  have hF : st0.next + 1 ≠ st0.next := by omega
  refine ⟨?_, ?_, ?_⟩
  · simp [suppress_stderr_run, osDup, osOpenDevnull, osDup2, osClose,
      finallyBlock, her, hA, hB, hC, hD, hE, hF]
  · intro fd
    simp only [suppress_stderr_run, osDup, osOpenDevnull, osDup2, osClose,
      finallyBlock, her]
    simp [hA, hB, hC, hD, hE, hF]
    by_cases h1 : fd = st0.next + 1
    · subst h1
      simp [hC.symm, hF]
      exact (hwf _ (by omega)).symm
    · by_cases h2 : fd = st0.next
      · subst h2
        simp [hA, hE]
        exact (hwf _ (by omega)).symm
      · by_cases h3 : fd = er
        · subst h3
          simp [h1, h2, her]
        · simp [h1, h2, h3]
  · intro st hst
    constructor
    · simp [suppress_stderr_run, osDup, hst]
    · simp [suppress_stderr_run, osDup, hst]

/-- Descriptor table used by the C9 witness: descriptors 0..2 conceptually in
use, with 2 being stderr. -/
def fdInit : FDState :=
  { next := 3, table := fun x => if x = 2 then some Sink.origErr else none }

/-- C9 witness: a concrete well-formed table, body returning normally. -/
theorem suppress_stderr_witness :
    (suppress_stderr_run fdInit 2 none).1 = none ∧
    (suppress_stderr_run fdInit 2 none).2.table 2 = some Sink.origErr := by
  have h := suppress_stderr_restores fdInit 2 none Sink.origErr
    (fun fd hf => by
      have h3 : 3 ≤ fd := hf
      simp only [fdInit]
      rw [if_neg (by omega)])
    (by simp [fdInit])
  exact ⟨h.1, (h.2.1 2).trans (by simp [fdInit])⟩

end VTT
